import Mathlib

/- Shallow embedding of src/galvanizedb/src/main.rs (the GalvanizeDB CLI).

   The renderer part models the SELECT branch of execute_sql: the sequence of
   lines it prints for a tabular result set.  Strings are measured both in
   characters (String.length, which is what the Rust format-width machinery
   pads with) and in UTF-8 bytes (byteLenStr, which is what Rust str::len
   returns).  A cell is modelled by the three readings the code attempts on
   it: as TEXT (String), as INTEGER (i64) and as REAL (f64); the REAL reading
   is carried as the decimal text that the f64 to_string call would print,
   so no floating-point arithmetic is needed in the model. -/

/-- UTF-8 encoded size in bytes of one character, as Rust str::len counts it. -/
def csize (c : Char) : Nat :=
  if c.toNat ≤ 127 then 1
  else if c.toNat ≤ 2047 then 2
  else if c.toNat ≤ 65535 then 3
  else 4

/-- Byte length of a string: the model of Rust str::len. -/
def byteLenStr (s : String) : Nat := (s.data.map csize).sum

/-- ASCII lower-casing of one character, the model of what to_lowercase does
on the ASCII command keywords this program compares. -/
def asciiLower (c : Char) : Char :=
  if 65 ≤ c.toNat ∧ c.toNat ≤ 90 then Char.ofNat (c.toNat + 32) else c

/-- ASCII upper-casing of one character. -/
def asciiUpper (c : Char) : Char :=
  if 97 ≤ c.toNat ∧ c.toNat ≤ 122 then Char.ofNat (c.toNat - 32) else c

/-- Model of Rust String::to_lowercase restricted to ASCII case mapping. -/
def to_lowercase (s : String) : String := String.mk (s.data.map asciiLower)

/-- Model of Rust String::to_uppercase restricted to ASCII case mapping. -/
def to_uppercase (s : String) : String := String.mk (s.data.map asciiUpper)

/-- Model of Rust str::starts_with. -/
def starts_with (pre s : String) : Bool := pre.data.isPrefixOf s.data

/-- Model of Rust str::ends_with. -/
def ends_with (suf s : String) : Bool := suf.data.isSuffixOf s.data

/-- Decimal digit character for a value below ten. -/
def digitCh (n : Nat) : Char := Char.ofNat (48 + n)

/-- Fuel-driven decimal digit expansion, most significant digit first. -/
def natDigitsAux : Nat → Nat → List Char
  | 0, _ => []
  | fuel + 1, n =>
    if n < 10 then [digitCh n]
    else natDigitsAux fuel (n / 10) ++ [digitCh (n % 10)]

/-- Decimal representation of a natural number. -/
def natRepr (n : Nat) : String := String.mk (natDigitsAux (n + 1) n)

/-- Model of Rust i64 to_string: signed base-10 decimal text. -/
def intRepr : Int → String
  | Int.ofNat n => natRepr n
  | Int.negSucc n => String.mk ('-' :: natDigitsAux (n + 2) (n + 1))

/-- One column of a result set: its name and the type name reported by the
engine (col.type_info().name() in the code), for example TEXT or INTEGER. -/
structure Col where
  name : String
  kind : String
deriving DecidableEq

/-- One cell, modelled by the readings try_get can attempt on it.  A field is
none when the corresponding try_get call would fail for this cell.  The
asReal field carries the decimal text the f64 value would print as. -/
structure Cell where
  asText : Option String
  asInt : Option Int
  asReal : Option String
deriving DecidableEq

/-- A tabular query result: ordered columns (rows[0].columns() in the code)
and the rows, each row holding one cell per column in column order. -/
structure ResultSet where
  cols : List Col
  rows : List (List Cell)
deriving DecidableEq

def dCol : Col := { name := "", kind := "" }

def dCell : Cell := { asText := none, asInt := none, asReal := none }

/-- The literal placeholder the code uses for kinds it cannot render. -/
def unsupportedText : String := "Unsupported type"

/-- Width contribution of one cell in the first pass of execute_sql: TEXT
cells contribute the byte length of the string (0 when unreadable), INTEGER
cells the length of the decimal text (0 when unreadable), and every other
kind contributes the fixed length of the placeholder text. -/
def widthContrib (k : String) (c : Cell) : Nat :=
  if k = "TEXT" then
    match c.asText with
    | some v => byteLenStr v
    | none => 0
  else if k = "INTEGER" then
    match c.asInt with
    | some v => byteLenStr (intRepr v)
    | none => 0
  else byteLenStr unsupportedText

/-- Text printed for one cell in the data pass of execute_sql: TEXT and
INTEGER render their value (empty when unreadable); any other kind first
attempts the f64 reading and renders its decimal text, falling back to the
placeholder only when that reading fails. -/
def renderValue (k : String) (c : Cell) : String :=
  if k = "TEXT" then
    match c.asText with
    | some v => v
    | none => ""
  else if k = "INTEGER" then
    match c.asInt with
    | some v => intRepr v
    | none => ""
  else
    match c.asReal with
    | some s => s
    | none => unsupportedText

/-- One step of the width loop: column_widths[i] = max(column_widths[i], length). -/
def updateWidths : List Col → List Nat → List Cell → List Nat
  | c :: cs, w :: ws, x :: xs => max w (widthContrib c.kind x) :: updateWidths cs ws xs
  | _, ws, _ => ws

/-- The column widths computed by execute_sql: start from the byte lengths of
the column names and take the running maximum with every cell contribution. -/
def computeWidths (cols : List Col) (rows : List (List Cell)) : List Nat :=
  rows.foldl (fun ws row => updateWidths cols ws row) (cols.map fun c => byteLenStr c.name)

def repChar (c : Char) (n : Nat) : String := String.mk (List.replicate n c)

/-- Rust format width padding for a left-aligned string: append spaces up to
w characters; a longer string is left untouched (format never truncates). -/
def padTo (w : Nat) (s : String) : String := s ++ repChar ' ' (w - s.length)

/-- The create_line closure: dash runs of width + 2 joined with plus signs. -/
def borderSegs : List Nat → String
  | [] => ""
  | [w] => repChar '-' (w + 2)
  | w :: ws => repChar '-' (w + 2) ++ "+" ++ borderSegs ws

def borderLine (ws : List Nat) : String := "+" ++ borderSegs ws ++ "+"

def headerCells : List Col → List Nat → String
  | c :: cs, w :: ws => "| " ++ padTo w c.name ++ " " ++ headerCells cs ws
  | _, _ => ""

/-- The header row: every column name padded to its width, closed with a bar. -/
def headerLine (cols : List Col) (ws : List Nat) : String := headerCells cols ws ++ "|"

def cellsText : List Col → List Nat → List Cell → String
  | c :: cs, w :: ws, x :: xs =>
    "| " ++ padTo w (renderValue c.kind x) ++ " " ++ cellsText cs ws xs
  | _, _, _ => ""

/-- One data row: every rendered cell padded to its column width. -/
def rowLine (cols : List Col) (ws : List Nat) (row : List Cell) : String :=
  cellsText cols ws row ++ "|"

def noResultsLine : String := "No results found."

/-- The lines printed by the SELECT branch of execute_sql: a single
informational line for an empty result, otherwise top border, header,
separator, one line per row and bottom border. -/
def render (rs : ResultSet) : List String :=
  if rs.rows = [] then [noResultsLine]
  else
    let ws := computeWidths rs.cols rs.rows
    borderLine ws :: headerLine rs.cols ws :: borderLine ws ::
      ((rs.rows.map fun row => rowLine rs.cols ws row) ++ [borderLine ws])

/- Dispatcher part: the body of the main REPL loop for one input line.
   External collaborators (filesystem, sqlx engine) are modelled by an
   Oracle supplying the outcome of each call, and the observable actions of
   one loop iteration are recorded as an ordered event list.  A connection
   pool handle is modelled by a numeric identifier; execute_sql is abstracted
   to the single event recording that the statement reached the engine
   (its printed output is the renderer model above). -/

/-- Model of Rust str::split_whitespace on the character list: split at
whitespace runs, dropping empty pieces. -/
def split_whitespace_aux : List Char → List Char → List (List Char)
  | [], acc => if acc = [] then [] else [acc.reverse]
  | c :: cs, acc =>
    if c.isWhitespace then
      if acc = [] then split_whitespace_aux cs []
      else acc.reverse :: split_whitespace_aux cs []
    else split_whitespace_aux cs (c :: acc)

def split_whitespace (s : String) : List String :=
  (split_whitespace_aux s.data []).map String.mk

/-- Model of str::strip_suffix with the semicolon character: drop one
trailing semicolon when present, otherwise keep the string. -/
def strip_semicolon (s : String) : String :=
  if ends_with ";" s then String.mk s.data.dropLast else s

/-- format_db_name from the source: append the .db suffix when absent. -/
def format_db_name (name : String) : String :=
  if ends_with ".db" name then name else name ++ ".db"

/-- extract_db_name from the source: USE with exactly one argument, or
CREATE/DROP DATABASE with at least three tokens whose second token is the
word database compared case-insensitively; the name token loses one
trailing semicolon and gains the .db suffix. -/
def extract_db_name (input : String) : Option String :=
  let parts := split_whitespace input
  if parts.length ≥ 2 then
    let command := to_uppercase (parts.getD 0 "")
    if command = "USE" ∧ parts.length = 2 then
      some (format_db_name (strip_semicolon (parts.getD 1 "")))
    else if (command = "CREATE" ∨ command = "DROP") ∧ parts.length ≥ 3 ∧
        to_lowercase (parts.getD 1 "") = "database" then
      some (format_db_name (strip_semicolon (parts.getD 2 "")))
    else none
  else none

/-- The fixed introspection statement run by SHOW TABLES. -/
def showTablesQuery : String :=
  "SELECT name FROM sqlite_master WHERE type=\x27table\x27;"

/-- The user-visible messages the loop can print, one constructor per
println or eprintln call site in the dispatcher. -/
inductive Msg where
  | notExistCreating (name : String)
  | created (name : String)
  | connected (name : String)
  | connectError (name : String)
  | invalidDbName
  | closingConnection
  | connectionClosed
  | dropped (name : String)
  | dropError (name : String)
  | helpText
  | queryOk
  | queryError
  | noDatabaseSelected
deriving DecidableEq

/-- Observable actions of one loop iteration, in program order. -/
inductive Event where
  | print (m : Msg)
  | connect (name : String)
  | close
  | execSql (stmt : String)
  | deleteFile (name : String)
deriving DecidableEq

/-- The mutable session state of the loop: the prompt name (None when no
database was selected) and the optional pool handle. -/
structure Session where
  database_name : String
  sql_pool : Option Nat
deriving DecidableEq

/-- Outcomes of the external collaborator calls: file existence, connection
open or create (none on error), statement execution success, file deletion
success. -/
structure Oracle where
  fileExists : String → Bool
  connect : String → Option Nat
  execOk : String → Bool
  deleteOk : String → Bool

/-- Result of dispatching one input line: the new session state, the events
in order, and whether the loop breaks (EXIT). -/
structure StepResult where
  session : Session
  events : List Event
  quit : Bool
deriving DecidableEq

/-- The body of the main loop for one read line, translated branch by branch
from the source.  Note in particular: the USE and CREATE DATABASE branch
assigns database_name before attempting the connection and never closes a
previously attached pool; the DROP SCHEMA branch closes the pool and resets
the name but leaves sql_pool installed; the DROP DATABASE branch closes,
deletes and resets both fields; the fallthrough branch forwards the raw line
to execute_sql whenever sql_pool holds a handle. -/
def dispatch (o : Oracle) (line : String) (st : Session) : StepResult :=
  let lower := to_lowercase line
  if starts_with "use " lower || starts_with "create database " lower then
    match extract_db_name line with
    | some name =>
      let notice : List Event :=
        if !o.fileExists name && starts_with "use " lower then
          [Event.print (Msg.notExistCreating name)]
        else []
      match o.connect name with
      | some pool =>
        let createdMsg : List Event :=
          if starts_with "create database " lower then [Event.print (Msg.created name)]
          else []
        { session := { database_name := name, sql_pool := some pool },
          events := notice ++ [Event.connect name] ++ createdMsg ++
            [Event.print (Msg.connected name)],
          quit := false }
      | none =>
        { session := { database_name := name, sql_pool := none },
          events := notice ++ [Event.connect name, Event.print (Msg.connectError name)],
          quit := false }
    | none => { session := st, events := [Event.print Msg.invalidDbName], quit := false }
  else if starts_with "drop schema " lower then
    match st.sql_pool with
    | some _ =>
      { session := { database_name := "None", sql_pool := st.sql_pool },
        events := [Event.print Msg.closingConnection, Event.close,
          Event.print Msg.connectionClosed],
        quit := false }
    | none => { session := st, events := [], quit := false }
  else if lower == "show tables;" then
    match st.sql_pool with
    | some _ =>
      { session := st,
        events := [Event.execSql showTablesQuery,
          Event.print (if o.execOk showTablesQuery then Msg.queryOk else Msg.queryError)],
        quit := false }
    | none => { session := st, events := [Event.print Msg.noDatabaseSelected], quit := false }
  else if starts_with "drop database " lower then
    match extract_db_name line with
    | some name =>
      let closeEvs : List Event :=
        match st.sql_pool with
        | some _ => [Event.print Msg.closingConnection, Event.close,
            Event.print Msg.connectionClosed]
        | none => []
      { session := { database_name := "None", sql_pool := none },
        events := closeEvs ++ [Event.deleteFile name,
          Event.print (if o.deleteOk name then Msg.dropped name else Msg.dropError name)],
        quit := false }
    | none => { session := st, events := [Event.print Msg.invalidDbName], quit := false }
  else if lower == "help" || line == "?" then
    { session := st, events := [Event.print Msg.helpText], quit := false }
  else if lower == "exit" then
    match st.sql_pool with
    | some _ =>
      { session := { st with sql_pool := none },
        events := [Event.print Msg.closingConnection, Event.close,
          Event.print Msg.connectionClosed],
        quit := true }
    | none => { session := st, events := [], quit := true }
  else
    match st.sql_pool with
    | some _ =>
      { session := st,
        events := [Event.execSql line,
          Event.print (if o.execOk line then Msg.queryOk else Msg.queryError)],
        quit := false }
    | none => { session := st, events := [Event.print Msg.noDatabaseSelected], quit := false }

/-- The disjunction of every command guard of the loop; a line is forwarded
to the engine as raw SQL exactly when this is false. -/
def isCommand (line : String) : Bool :=
  starts_with "use " (to_lowercase line) ||
  starts_with "create database " (to_lowercase line) ||
  starts_with "drop schema " (to_lowercase line) ||
  to_lowercase line == "show tables;" ||
  starts_with "drop database " (to_lowercase line) ||
  to_lowercase line == "help" || line == "?" ||
  to_lowercase line == "exit"

/-- Spec-side quantity for the width claims: the byte length of the longest
rendered cell text of column j over all rows. -/
def maxCellBytes (cols : List Col) (rows : List (List Cell)) (j : Nat) : Nat :=
  rows.foldl
    (fun a row => max a (byteLenStr (renderValue (cols.getD j dCol).kind (row.getD j dCell))))
    0

/- Concrete fixtures used by counterexamples and witnesses. -/

/-- One REAL column whose single cell reads back as a 17-character float
text: longer than the 16-character placeholder the width pass budgeted. -/
def rsC1 : ResultSet :=
  { cols := [{ name := "x", kind := "REAL" }],
    rows := [[{ asText := none, asInt := none, asReal := some "3.141592653589793" }]] }

/-- One REAL column whose single cell renders as the 3-character text 1.5,
while the width pass still counts the 16-character placeholder. -/
def rsC2 : ResultSet :=
  { cols := [{ name := "x", kind := "REAL" }],
    rows := [[{ asText := none, asInt := none, asReal := some "1.5" }]] }

/-- A TEXT column holding one multi-byte character: 2 bytes, 1 character. -/
def rsC10 : ResultSet :=
  { cols := [{ name := "ab", kind := "TEXT" }],
    rows := [[{ asText := some "é", asInt := none, asReal := none }]] }

/-- Well-behaved two-column fixture for the witness of the table-shape claim. -/
def rsW1 : ResultSet :=
  { cols := [{ name := "id", kind := "INTEGER" }, { name := "name", kind := "TEXT" }],
    rows := [[{ asText := none, asInt := some 7, asReal := none },
              { asText := some "ann", asInt := none, asReal := none }],
             [{ asText := none, asInt := some 42, asReal := none },
              { asText := some "bo", asInt := none, asReal := none }]] }

def colsW2 : List Col := [{ name := "n", kind := "INTEGER" }]

def rowsW2 : List (List Cell) := [[{ asText := none, asInt := some 123, asReal := none }]]

def rowsW2b : List (List Cell) := [[{ asText := none, asInt := some 456, asReal := none }]]

def colsW10 : List Col := [{ name := "ab", kind := "TEXT" }]

def rowsW10 : List (List Cell) := [[{ asText := some "xyz", asInt := none, asReal := none }]]

/-- Oracle whose calls all succeed; connections get handle 4. -/
def oT : Oracle :=
  { fileExists := fun _ => true, connect := fun _ => some 4,
    execOk := fun _ => true, deleteOk := fun _ => true }

/-- Oracle whose connection attempts all fail. -/
def oF : Oracle :=
  { fileExists := fun _ => true, connect := fun _ => none,
    execOk := fun _ => true, deleteOk := fun _ => true }

/- Toolbox lemmas about lengths, byte lengths and running maxima. -/

lemma len_plus : ("+" : String).length = 1 := rfl

lemma len_bar : ("|" : String).length = 1 := rfl

lemma len_barsp : ("| " : String).length = 2 := rfl

lemma len_sp : (" " : String).length = 1 := rfl

lemma csize_pos (c : Char) : 1 ≤ csize c := by
  unfold csize
  split_ifs <;> omega

lemma length_le_byteLen (s : String) : s.length ≤ byteLenStr s := by
  show s.data.length ≤ (s.data.map csize).sum
  induction s.data with
  | nil => simp
  | cons c l ih =>
    have hc := csize_pos c
    simp only [List.length_cons, List.map_cons, List.sum_cons]
    omega

lemma byteLen_append (s t : String) : byteLenStr (s ++ t) = byteLenStr s + byteLenStr t := by
  unfold byteLenStr
  rw [String.data_append, List.map_append, List.sum_append]

lemma repChar_length (c : Char) (n : Nat) : (repChar c n).length = n :=
  List.length_replicate n c

lemma byteLen_repChar_space (n : Nat) : byteLenStr (repChar ' ' n) = n := by
  show ((List.replicate n ' ').map csize).sum = n
  induction n with
  | zero => rfl
  | succ m ih =>
    simp only [List.replicate_succ, List.map_cons, List.sum_cons, ih]
    have h1 : csize ' ' = 1 := by decide
    omega

lemma padTo_length (w : Nat) (s : String) : (padTo w s).length = max w s.length := by
  unfold padTo
  rw [String.length_append, repChar_length]
  omega

lemma padTo_length_of_le (w : Nat) (s : String) (h : s.length ≤ w) :
    (padTo w s).length = w := by
  rw [padTo_length]
  omega

lemma byteLen_padTo (w : Nat) (s : String) :
    byteLenStr (padTo w s) = byteLenStr s + (w - s.length) := by
  unfold padTo
  rw [byteLen_append, byteLen_repChar_space]

lemma foldl_max_init {α : Type} (f : α → Nat) :
    ∀ (l : List α) (a : Nat), a ≤ l.foldl (fun b x => max b (f x)) a := by
  intro l
  induction l with
  | nil => intro a; exact Nat.le_refl a
  | cons x xs ih =>
    intro a
    exact Nat.le_trans (Nat.le_max_left a (f x)) (ih (max a (f x)))

lemma foldl_max_mem {α : Type} (f : α → Nat) :
    ∀ (l : List α) (a : Nat) (x : α), x ∈ l →
      f x ≤ l.foldl (fun b y => max b (f y)) a := by
  intro l
  induction l with
  | nil => intro a x hx; cases hx
  | cons y ys ih =>
    intro a x hx
    rcases List.mem_cons.mp hx with h | h
    · subst h
      exact Nat.le_trans (Nat.le_max_right a (f x)) (foldl_max_init f ys (max a (f x)))
    · exact ih (max a (f y)) x h

lemma foldl_max_start {α : Type} (f : α → Nat) :
    ∀ (l : List α) (a : Nat),
      l.foldl (fun b x => max b (f x)) a = max a (l.foldl (fun b x => max b (f x)) 0) := by
  intro l
  induction l with
  | nil => intro a; exact (Nat.max_zero a).symm
  | cons x xs ih =>
    intro a
    show xs.foldl (fun b y => max b (f y)) (max a (f x)) =
      max a (xs.foldl (fun b y => max b (f y)) (max 0 (f x)))
    rw [ih (max a (f x)), ih (max 0 (f x)), Nat.zero_max, Nat.max_assoc]

lemma getD_mem {α : Type} : ∀ (l : List α) (n : Nat) (d : α), n < l.length → l.getD n d ∈ l := by
  intro l
  induction l with
  | nil => intro n d h; simp at h
  | cons x xs ih =>
    intro n d h
    cases n with
    | zero => exact List.mem_cons_self x xs
    | succ n => exact List.mem_cons_of_mem x (ih n d (by simpa using h))

/- Facts about the width pass of execute_sql. -/

lemma updateWidths_length :
    ∀ (cols : List Col) (ws : List Nat) (row : List Cell),
      (updateWidths cols ws row).length = ws.length := by
  intro cols
  induction cols with
  | nil => intro ws row; rfl
  | cons c cs ih =>
    intro ws row
    cases ws with
    | nil => rfl
    | cons w ws =>
      cases row with
      | nil => rfl
      | cons x xs => simp [updateWidths, ih]

lemma updateWidths_getD :
    ∀ (cols : List Col) (ws : List Nat) (row : List Cell) (j : Nat),
      j < cols.length → j < ws.length → j < row.length →
      (updateWidths cols ws row).getD j 0 =
        max (ws.getD j 0) (widthContrib (cols.getD j dCol).kind (row.getD j dCell)) := by
  intro cols
  induction cols with
  | nil => intro ws row j h1 _ _; simp at h1
  | cons c cs ih =>
    intro ws row j h1 h2 h3
    cases ws with
    | nil => simp at h2
    | cons w ws =>
      cases row with
      | nil => simp at h3
      | cons x xs =>
        cases j with
        | zero => simp [updateWidths]
        | succ j =>
          simp only [updateWidths, List.getD_cons_succ]
          exact ih ws xs j (by simpa using h1) (by simpa using h2) (by simpa using h3)

lemma foldl_updateWidths_length (cols : List Col) :
    ∀ (rows : List (List Cell)) (init : List Nat),
      (rows.foldl (fun ws row => updateWidths cols ws row) init).length = init.length := by
  intro rows
  induction rows with
  | nil => intro init; rfl
  | cons r rows ih =>
    intro init
    rw [List.foldl_cons, ih, updateWidths_length]

lemma computeWidths_length (cols : List Col) (rows : List (List Cell)) :
    (computeWidths cols rows).length = cols.length := by
  unfold computeWidths
  rw [foldl_updateWidths_length, List.length_map]

lemma map_name_getD :
    ∀ (cols : List Col) (j : Nat), j < cols.length →
      (cols.map fun c => byteLenStr c.name).getD j 0 = byteLenStr (cols.getD j dCol).name := by
  intro cols
  induction cols with
  | nil => intro j h; simp at h
  | cons c cs ih =>
    intro j h
    cases j with
    | zero => rfl
    | succ j =>
      simp only [List.map_cons, List.getD_cons_succ]
      exact ih j (by simpa using h)

lemma foldl_updateWidths_getD (cols : List Col) (j : Nat) (hj : j < cols.length) :
    ∀ (rows : List (List Cell)) (init : List Nat), init.length = cols.length →
      (∀ row ∈ rows, row.length = cols.length) →
      (rows.foldl (fun ws row => updateWidths cols ws row) init).getD j 0 =
        rows.foldl
          (fun a row => max a (widthContrib (cols.getD j dCol).kind (row.getD j dCell)))
          (init.getD j 0) := by
  intro rows
  induction rows with
  | nil => intro init _ _; rfl
  | cons r rows ih =>
    intro init h1 h2
    rw [List.foldl_cons, List.foldl_cons]
    rw [ih (updateWidths cols init r) (by rw [updateWidths_length]; exact h1)
      (fun row hrow => h2 row (List.mem_cons_of_mem r hrow))]
    rw [updateWidths_getD cols init r j hj (by rw [h1]; exact hj)
      (by rw [h2 r (List.mem_cons_self r rows)]; exact hj)]

lemma computeWidths_getD (cols : List Col) (rows : List (List Cell)) (j : Nat)
    (hj : j < cols.length) (hrect : ∀ row ∈ rows, row.length = cols.length) :
    (computeWidths cols rows).getD j 0 =
      rows.foldl
        (fun a row => max a (widthContrib (cols.getD j dCol).kind (row.getD j dCell)))
        (byteLenStr (cols.getD j dCol).name) := by
  unfold computeWidths
  rw [foldl_updateWidths_getD cols j hj rows _ (by rw [List.length_map]) hrect,
    map_name_getD cols j hj]

lemma width_ge_name (cols : List Col) (rows : List (List Cell)) (j : Nat)
    (hj : j < cols.length) (hrect : ∀ row ∈ rows, row.length = cols.length) :
    byteLenStr (cols.getD j dCol).name ≤ (computeWidths cols rows).getD j 0 := by
  rw [computeWidths_getD cols rows j hj hrect]
  exact foldl_max_init _ rows _

lemma width_ge_contrib (cols : List Col) (rows : List (List Cell)) (j : Nat)
    (row : List Cell) (hj : j < cols.length)
    (hrect : ∀ row ∈ rows, row.length = cols.length) (hrow : row ∈ rows) :
    widthContrib (cols.getD j dCol).kind (row.getD j dCell) ≤
      (computeWidths cols rows).getD j 0 := by
  rw [computeWidths_getD cols rows j hj hrect]
  exact foldl_max_mem (fun r => widthContrib (cols.getD j dCol).kind (r.getD j dCell))
    rows _ row hrow

lemma renderValue_le_contrib (k : String) (c : Cell)
    (hfb : ∀ s, c.asReal = some s → s.length ≤ unsupportedText.length) :
    (renderValue k c).length ≤ widthContrib k c := by
  unfold renderValue widthContrib
  split_ifs with h1 h2
  · cases htext : c.asText with
    | some v => exact length_le_byteLen v
    | none => exact Nat.le_refl 0
  · cases hint : c.asInt with
    | some v => exact length_le_byteLen (intRepr v)
    | none => exact Nat.le_refl 0
  · cases hreal : c.asReal with
    | some s =>
      exact Nat.le_trans (hfb s hreal) (length_le_byteLen unsupportedText)
    | none => exact length_le_byteLen unsupportedText

/- Per-line length facts for the emitted table. -/

lemma borderSegs_len : ∀ (ws : List Nat), ws ≠ [] →
    (borderSegs ws).length + 1 = ws.sum + 3 * ws.length := by
  intro ws
  induction ws with
  | nil => intro h; exact absurd rfl h
  | cons w ws ih =>
    intro _
    cases ws with
    | nil =>
      simp only [borderSegs, repChar_length, List.sum_cons, List.sum_nil, List.length_cons,
        List.length_nil]
      omega
    | cons w2 ws2 =>
      have hrest := ih (List.cons_ne_nil w2 ws2)
      simp only [borderSegs] at hrest ⊢
      rw [String.length_append, String.length_append, repChar_length, len_plus]
      simp only [List.sum_cons, List.length_cons] at hrest ⊢
      omega

lemma borderLine_len (ws : List Nat) (h : ws ≠ []) :
    (borderLine ws).length = ws.sum + 3 * ws.length + 1 := by
  unfold borderLine
  rw [String.length_append, String.length_append, len_plus]
  have := borderSegs_len ws h
  omega

lemma headerCells_len :
    ∀ (cols : List Col) (ws : List Nat), ws.length = cols.length →
      (∀ j, j < cols.length → (cols.getD j dCol).name.length ≤ ws.getD j 0) →
      (headerCells cols ws).length = ws.sum + 3 * ws.length := by
  intro cols
  induction cols with
  | nil =>
    intro ws hlen _
    have hnil : ws = [] := List.length_eq_zero.mp (by simpa using hlen)
    subst hnil
    rfl
  | cons c cs ih =>
    intro ws hlen hname
    cases ws with
    | nil => simp at hlen
    | cons w ws =>
      have h0 : c.name.length ≤ w := by simpa using hname 0 (by simp)
      have hrest := ih ws (by simpa using hlen) (fun j hj => by
        simpa using hname (j + 1) (by simpa using hj))
      simp only [headerCells]
      rw [String.length_append, String.length_append, String.length_append,
        padTo_length_of_le w c.name h0, hrest, len_barsp, len_sp]
      simp only [List.sum_cons, List.length_cons]
      omega

lemma cellsText_len :
    ∀ (cols : List Col) (ws : List Nat) (row : List Cell), ws.length = cols.length →
      row.length = cols.length →
      (∀ j, j < cols.length →
        (renderValue (cols.getD j dCol).kind (row.getD j dCell)).length ≤ ws.getD j 0) →
      (cellsText cols ws row).length = ws.sum + 3 * ws.length := by
  intro cols
  induction cols with
  | nil =>
    intro ws row hlen hrlen _
    have hnil : ws = [] := List.length_eq_zero.mp (by simpa using hlen)
    subst hnil
    rfl
  | cons c cs ih =>
    intro ws row hlen hrlen hval
    cases ws with
    | nil => simp at hlen
    | cons w ws =>
      cases row with
      | nil => simp at hrlen
      | cons x xs =>
        have h0 : (renderValue c.kind x).length ≤ w := by simpa using hval 0 (by simp)
        have hrest := ih ws xs (by simpa using hlen) (by simpa using hrlen) (fun j hj => by
          simpa using hval (j + 1) (by simpa using hj))
        simp only [cellsText]
        rw [String.length_append, String.length_append, String.length_append,
          padTo_length_of_le w (renderValue c.kind x) h0, hrest, len_barsp, len_sp]
        simp only [List.sum_cons, List.length_cons]
        omega

lemma render_of_ne_nil (rs : ResultSet) (hne : rs.rows ≠ []) :
    render rs = borderLine (computeWidths rs.cols rs.rows) ::
      headerLine rs.cols (computeWidths rs.cols rs.rows) ::
      borderLine (computeWidths rs.cols rs.rows) ::
      ((rs.rows.map fun row => rowLine rs.cols (computeWidths rs.cols rs.rows) row) ++
        [borderLine (computeWidths rs.cols rs.rows)]) := by
  unfold render
  rw [if_neg hne]

lemma render_line_len (rs : ResultSet) (hcols : rs.cols ≠ [])
    (hrect : ∀ row ∈ rs.rows, row.length = rs.cols.length)
    (hfb : ∀ row ∈ rs.rows, ∀ c ∈ row, (c.asReal.getD "").length ≤ unsupportedText.length)
    (hne : rs.rows ≠ []) :
    ∀ l ∈ render rs,
      l.length = (computeWidths rs.cols rs.rows).sum + 3 * rs.cols.length + 1 := by
  have hlen : (computeWidths rs.cols rs.rows).length = rs.cols.length :=
    computeWidths_length _ _
  have hwsne : computeWidths rs.cols rs.rows ≠ [] := by
    intro h
    rw [h] at hlen
    exact hcols (List.length_eq_zero.mp hlen.symm)
  have hborder : (borderLine (computeWidths rs.cols rs.rows)).length =
      (computeWidths rs.cols rs.rows).sum + 3 * rs.cols.length + 1 := by
    rw [borderLine_len _ hwsne, hlen]
  have hheadline : (headerLine rs.cols (computeWidths rs.cols rs.rows)).length =
      (computeWidths rs.cols rs.rows).sum + 3 * rs.cols.length + 1 := by
    unfold headerLine
    rw [String.length_append, len_bar,
      headerCells_len rs.cols _ hlen (fun j hj => by
        have h1 := length_le_byteLen (rs.cols.getD j dCol).name
        have h2 := width_ge_name rs.cols rs.rows j hj hrect
        omega), hlen]
  have hrowline : ∀ row ∈ rs.rows,
      (rowLine rs.cols (computeWidths rs.cols rs.rows) row).length =
        (computeWidths rs.cols rs.rows).sum + 3 * rs.cols.length + 1 := by
    intro row hrow
    unfold rowLine
    rw [String.length_append, len_bar,
      cellsText_len rs.cols _ row hlen (hrect row hrow) (fun j hj => by
        have hcell : row.getD j dCell ∈ row :=
          getD_mem row j dCell (by rw [hrect row hrow]; exact hj)
        have h1 := renderValue_le_contrib (rs.cols.getD j dCol).kind (row.getD j dCell)
          (fun s hs => by
            have h := hfb row hrow _ hcell
            rw [hs] at h
            simpa using h)
        have h2 := width_ge_contrib rs.cols rs.rows j row hj hrect hrow
        omega), hlen]
  intro l hl
  rw [render_of_ne_nil rs hne] at hl
  simp only [List.mem_cons, List.mem_append, List.mem_map, List.mem_singleton] at hl
  rcases hl with h | h | h | ⟨⟨row, hrow, h⟩ | h | h⟩
  · rw [h]; exact hborder
  · rw [h]; exact hheadline
  · rw [h]; exact hborder
  · rw [← h]; exact hrowline row hrow
  · rw [h]; exact hborder
  · simp at h

/- Helper lemmas shared by the width claims. -/

lemma foldl_funext {α β : Type} (f g : β → α → β) (l : List α) (b : β)
    (h : ∀ a x, f a x = g a x) : l.foldl f b = l.foldl g b := by
  have hfg : f = g := funext fun a => funext fun x => h a x
  rw [hfg]

lemma contrib_eq_bytes (k : String) (c : Cell) (hk : k = "TEXT" ∨ k = "INTEGER") :
    widthContrib k c = byteLenStr (renderValue k c) := by
  rcases hk with h | h <;> subst h
  · unfold widthContrib renderValue
    rw [if_pos rfl, if_pos rfl]
    cases c.asText with
    | some v => rfl
    | none => rfl
  · unfold widthContrib renderValue
    rw [if_neg (by decide), if_pos rfl, if_neg (by decide), if_pos rfl]
    cases c.asInt with
    | some v => rfl
    | none => rfl

lemma width_key (cols : List Col) (rows : List (List Cell)) (j : Nat)
    (hj : j < cols.length)
    (hk : (cols.getD j dCol).kind = "TEXT" ∨ (cols.getD j dCol).kind = "INTEGER")
    (hrect : ∀ row ∈ rows, row.length = cols.length) :
    (computeWidths cols rows).getD j 0 =
      max (byteLenStr (cols.getD j dCol).name) (maxCellBytes cols rows j) := by
  rw [computeWidths_getD cols rows j hj hrect]
  rw [foldl_funext _
    (fun a row => max a (byteLenStr (renderValue (cols.getD j dCol).kind (row.getD j dCell))))
    rows _ (fun a row => by rw [contrib_eq_bytes _ _ hk])]
  rw [foldl_max_start
    (fun row => byteLenStr (renderValue (cols.getD j dCol).kind (row.getD j dCell))) rows _]
  rfl

/- Claim theorems. -/

/-- Claim C1 counterexample: for the result set rsC1 (one REAL column whose
cell renders through the float fallback as a 17-character text while the
width pass budgets only the 16-character placeholder), the line count is
still N+4 but the emitted lines do not all have the same character length,
refuting the claim as stated. -/
theorem render_line_count_and_width_cex :
    (render rsC1).length = rsC1.rows.length + 4 ∧
    ¬ (∀ l1 ∈ render rsC1, ∀ l2 ∈ render rsC1, l1.length = l2.length) := by
  decide

/-- Claim C1 (amended): for a result set with at least one column, rectangular
rows, and every float-fallback text at most as long as the 16-character
placeholder, the renderer emits exactly one informational line when there are
no rows, and otherwise exactly N+4 lines all of identical character length. -/
theorem render_line_count_and_width (rs : ResultSet) (hcols : rs.cols ≠ [])
    (hrect : ∀ row ∈ rs.rows, row.length = rs.cols.length)
    (hfb : ∀ row ∈ rs.rows, ∀ c ∈ row, (c.asReal.getD "").length ≤ unsupportedText.length) :
    (rs.rows = [] → render rs = [noResultsLine]) ∧
    (rs.rows ≠ [] → (render rs).length = rs.rows.length + 4 ∧
      ∀ l1 ∈ render rs, ∀ l2 ∈ render rs, l1.length = l2.length) := by
  constructor
  · intro h
    unfold render
    rw [if_pos h]
  · intro hne
    constructor
    · rw [render_of_ne_nil rs hne]
      simp only [List.length_cons, List.length_append, List.length_map, List.length_singleton,
        List.length_nil]
    · intro l1 h1 l2 h2
      rw [render_line_len rs hcols hrect hfb hne l1 h1,
        render_line_len rs hcols hrect hfb hne l2 h2]

/-- Claim C1 witness: the amended theorem applied to the concrete two-column,
two-row fixture rsW1. -/
theorem render_line_count_and_width_witness :
    rsW1.cols ≠ [] ∧ (render rsW1).length = rsW1.rows.length + 4 :=
  ⟨by decide,
    ((render_line_count_and_width rsW1 (by decide) (by decide) (by decide)).2 (by decide)).1⟩

/-- Claim C2 counterexample: in rsC2 the longest rendered cell text has byte
length 3 and the column name has byte length 1, yet the computed width is 16
(the placeholder length used by the width pass for non-TEXT, non-INTEGER
kinds), refuting width = max(L, K) as stated. -/
theorem column_width_eq_max_cex :
    (computeWidths rsC2.cols rsC2.rows).getD 0 0 = 16 ∧
    max (byteLenStr (rsC2.cols.getD 0 dCol).name) (maxCellBytes rsC2.cols rsC2.rows 0) = 3 ∧
    ¬ (computeWidths rsC2.cols rsC2.rows).getD 0 0 =
      max (byteLenStr (rsC2.cols.getD 0 dCol).name) (maxCellBytes rsC2.cols rsC2.rows 0) := by
  decide

/-- Claim C2 (amended): for a column of kind TEXT or INTEGER the computed
width equals max(L, K) where K is the byte length of the column name and L
the byte length of the longest rendered cell text; consequently replacing the
rows by any other rows with the same max(L, K) leaves the width unchanged. -/
theorem column_width_eq_max (cols : List Col) (rows rows2 : List (List Cell)) (j : Nat)
    (hj : j < cols.length)
    (hk : (cols.getD j dCol).kind = "TEXT" ∨ (cols.getD j dCol).kind = "INTEGER")
    (hrect : ∀ row ∈ rows, row.length = cols.length)
    (hrect2 : ∀ row ∈ rows2, row.length = cols.length)
    (hmax : max (byteLenStr (cols.getD j dCol).name) (maxCellBytes cols rows2 j) =
      max (byteLenStr (cols.getD j dCol).name) (maxCellBytes cols rows j)) :
    (computeWidths cols rows).getD j 0 =
      max (byteLenStr (cols.getD j dCol).name) (maxCellBytes cols rows j) ∧
    (computeWidths cols rows2).getD j 0 = (computeWidths cols rows).getD j 0 := by
  refine ⟨width_key cols rows j hj hk hrect, ?_⟩
  rw [width_key cols rows2 j hj hk hrect2, hmax, width_key cols rows j hj hk hrect]

/-- Claim C2 witness: the amended theorem applied to a concrete INTEGER
column with two alternative single-cell row lists of equal maximum. -/
theorem column_width_eq_max_witness :
    (0 : Nat) < colsW2.length ∧
    (computeWidths colsW2 rowsW2b).getD 0 0 = (computeWidths colsW2 rowsW2).getD 0 0 :=
  ⟨by decide,
    (column_width_eq_max colsW2 rowsW2 rowsW2b 0 (by decide) (by decide) (by decide)
      (by decide) (by decide)).2⟩

/-- Claim C3: for a cell in a column whose kind is neither TEXT nor INTEGER,
the renderer first attempts the REAL (f64) reading: when it succeeds the cell
renders as that decimal text, and only when it fails does the cell render as
the literal placeholder. -/
theorem unsupported_kind_real_fallback (k : String) (c : Cell)
    (h1 : k ≠ "TEXT") (h2 : k ≠ "INTEGER") :
    (∀ s, c.asReal = some s → renderValue k c = s) ∧
    (c.asReal = none → renderValue k c = unsupportedText) := by
  unfold renderValue
  rw [if_neg h1, if_neg h2]
  constructor
  · intro s hs
    rw [hs]
  · intro hs
    rw [hs]

/-- Claim C3 witness: a REAL-kind cell reading back as 2.5 renders as 2.5. -/
theorem unsupported_kind_real_fallback_witness :
    ("REAL" : String) ≠ "TEXT" ∧
    renderValue "REAL" { asText := none, asInt := none, asReal := some "2.5" } = "2.5" :=
  ⟨by decide,
    (unsupported_kind_real_fallback "REAL"
      { asText := none, asInt := none, asReal := some "2.5" }
      (by decide) (by decide)).1 "2.5" rfl⟩

/-- Claim C9 counterexample: a fully absent cell in a REAL-kind column is
counted with width 16 (the placeholder length), not as an empty-length value,
refuting the width half of the claim as stated. -/
theorem absent_cell_treatment_cex :
    widthContrib "REAL" dCell = 16 ∧ ¬ widthContrib "REAL" dCell = 0 ∧
    renderValue "REAL" dCell = unsupportedText := by
  decide

/-- Claim C9 (amended): an absent or unreadable cell is treated as
empty-length for widths and rendered as the empty string in TEXT and INTEGER
columns; in a column of any other kind it always contributes the placeholder
length 16 to the width and renders as the placeholder text.  Rendering is a
total function, so no such cell can abort a render. -/
theorem absent_cell_treatment (k : String) (c : Cell)
    (ht : c.asText = none) (hi : c.asInt = none) (hr : c.asReal = none) :
    (widthContrib "TEXT" c = 0 ∧ renderValue "TEXT" c = "") ∧
    (widthContrib "INTEGER" c = 0 ∧ renderValue "INTEGER" c = "") ∧
    (k ≠ "TEXT" → k ≠ "INTEGER" →
      widthContrib k c = unsupportedText.length ∧ renderValue k c = unsupportedText) := by
  refine ⟨⟨?_, ?_⟩, ⟨?_, ?_⟩, fun h1 h2 => ⟨?_, ?_⟩⟩
  · unfold widthContrib
    rw [if_pos rfl, ht]
  · unfold renderValue
    rw [if_pos rfl, ht]
  · unfold widthContrib
    rw [if_neg (by decide), if_pos rfl, hi]
  · unfold renderValue
    rw [if_neg (by decide), if_pos rfl, hi]
  · unfold widthContrib
    rw [if_neg h1, if_neg h2]
    decide
  · unfold renderValue
    rw [if_neg h1, if_neg h2, hr]

/-- Claim C9 witness: the amended theorem applied to the fully absent cell in
a REAL-kind column. -/
theorem absent_cell_treatment_witness :
    dCell.asText = none ∧ widthContrib "REAL" dCell = unsupportedText.length :=
  ⟨rfl, ((absent_cell_treatment "REAL" dCell rfl rfl rfl).2.2 (by decide) (by decide)).1⟩

/-- Claim C10 counterexample: in rsC10 (a TEXT column containing one
multi-byte character) the data line and the border line of the rendered table
have different byte lengths, so the table is not aligned by byte count as the
claim states. -/
theorem width_bytes_padding_chars_cex :
    byteLenStr ((render rsC10).getD 3 "") = 7 ∧
    byteLenStr ((render rsC10).getD 0 "") = 6 ∧
    ¬ (∀ l1 ∈ render rsC10, ∀ l2 ∈ render rsC10, byteLenStr l1 = byteLenStr l2) := by
  decide

/-- Claim C10 (amended): column widths are computed from UTF-8 byte lengths
(for TEXT and INTEGER columns the width is the byte length of the longest
name or cell text), but the padding applied to each cell counts characters:
a padded field has character count max(w, chars) and byte count
bytes + (w - chars), so alignment is by character count relative to the
byte-derived widths, not by byte count. -/
theorem width_bytes_padding_chars (cols : List Col) (rows : List (List Cell)) (j : Nat)
    (hj : j < cols.length)
    (hk : (cols.getD j dCol).kind = "TEXT" ∨ (cols.getD j dCol).kind = "INTEGER")
    (hrect : ∀ row ∈ rows, row.length = cols.length) :
    (computeWidths cols rows).getD j 0 =
      max (byteLenStr (cols.getD j dCol).name) (maxCellBytes cols rows j) ∧
    (∀ w s, (padTo w s).length = max w s.length ∧
      byteLenStr (padTo w s) = byteLenStr s + (w - s.length)) :=
  ⟨width_key cols rows j hj hk hrect, fun w s => ⟨padTo_length w s, byteLen_padTo w s⟩⟩

/-- Claim C10 witness: the amended theorem applied to a concrete TEXT column. -/
theorem width_bytes_padding_chars_witness :
    (0 : Nat) < colsW10.length ∧
    (computeWidths colsW10 rowsW10).getD 0 0 =
      max (byteLenStr (colsW10.getD 0 dCol).name) (maxCellBytes colsW10 rowsW10 0) :=
  ⟨by decide,
    (width_bytes_padding_chars colsW10 rowsW10 0 (by decide) (by decide) (by decide)).1⟩

/- Dispatcher lemmas: guard disjointness and one equation per branch. -/

lemma isPrefixOf_dichotomy :
    ∀ (a b s : List Char), a.isPrefixOf s = true → b.isPrefixOf s = true →
      a.isPrefixOf b = true ∨ b.isPrefixOf a = true := by
  intro a
  induction a with
  | nil => intro b s _ _; left; cases b <;> simp [List.isPrefixOf]
  | cons x xs ih =>
    intro b s h1 h2
    cases s with
    | nil => simp [List.isPrefixOf] at h1
    | cons z zs =>
      cases b with
      | nil => right; simp [List.isPrefixOf]
      | cons y ys =>
        simp only [List.isPrefixOf, Bool.and_eq_true, beq_iff_eq] at h1 h2 ⊢
        obtain ⟨hx, h1t⟩ := h1
        obtain ⟨hy, h2t⟩ := h2
        subst hx
        subst hy
        rcases ih ys zs h1t h2t with h | h
        · left; exact ⟨rfl, h⟩
        · right; exact ⟨rfl, h⟩

lemma starts_with_disjoint (a b s : String) (h : starts_with b s = true)
    (hab : a.data.isPrefixOf b.data = false) (hba : b.data.isPrefixOf a.data = false) :
    starts_with a s = false := by
  unfold starts_with at h ⊢
  cases hcase : a.data.isPrefixOf s.data
  · rfl
  · rcases isPrefixOf_dichotomy a.data b.data s.data hcase h with h2 | h2
    · rw [h2] at hab; cases hab
    · rw [h2] at hba; cases hba

lemma dispatch_use_create_invalid (o : Oracle) (line : String) (st : Session)
    (hg : (starts_with "use " (to_lowercase line) ||
      starts_with "create database " (to_lowercase line)) = true)
    (hex : extract_db_name line = none) :
    dispatch o line st =
      { session := st, events := [Event.print Msg.invalidDbName], quit := false } := by
  unfold dispatch
  simp only [hg, if_true, hex]

lemma dispatch_use_create_ok (o : Oracle) (line : String) (st : Session) (name : String)
    (p : Nat)
    (hg : (starts_with "use " (to_lowercase line) ||
      starts_with "create database " (to_lowercase line)) = true)
    (hex : extract_db_name line = some name)
    (hc : o.connect name = some p) :
    dispatch o line st =
      { session := { database_name := name, sql_pool := some p },
        events :=
          (if !o.fileExists name && starts_with "use " (to_lowercase line) then
            [Event.print (Msg.notExistCreating name)] else []) ++
          [Event.connect name] ++
          (if starts_with "create database " (to_lowercase line) then
            [Event.print (Msg.created name)] else []) ++
          [Event.print (Msg.connected name)],
        quit := false } := by
  unfold dispatch
  simp only [hg, if_true, hex, hc]

lemma dispatch_use_create_fail (o : Oracle) (line : String) (st : Session) (name : String)
    (hg : (starts_with "use " (to_lowercase line) ||
      starts_with "create database " (to_lowercase line)) = true)
    (hex : extract_db_name line = some name)
    (hc : o.connect name = none) :
    dispatch o line st =
      { session := { database_name := name, sql_pool := none },
        events :=
          (if !o.fileExists name && starts_with "use " (to_lowercase line) then
            [Event.print (Msg.notExistCreating name)] else []) ++
          [Event.connect name, Event.print (Msg.connectError name)],
        quit := false } := by
  unfold dispatch
  simp only [hg, if_true, hex, hc]

lemma dispatch_drop_schema_some (o : Oracle) (line : String) (st : Session) (p : Nat)
    (hg : starts_with "drop schema " (to_lowercase line) = true)
    (hp : st.sql_pool = some p) :
    dispatch o line st =
      { session := { database_name := "None", sql_pool := some p },
        events := [Event.print Msg.closingConnection, Event.close,
          Event.print Msg.connectionClosed],
        quit := false } := by
  have h1 : starts_with "use " (to_lowercase line) = false :=
    starts_with_disjoint _ _ _ hg (by decide) (by decide)
  have h2 : starts_with "create database " (to_lowercase line) = false :=
    starts_with_disjoint _ _ _ hg (by decide) (by decide)
  unfold dispatch
  simp only [h1, h2, Bool.or_self, Bool.false_eq_true, if_false, hg, if_true, hp]

lemma dispatch_drop_schema_none (o : Oracle) (line : String) (st : Session)
    (hg : starts_with "drop schema " (to_lowercase line) = true)
    (hp : st.sql_pool = none) :
    dispatch o line st = { session := st, events := [], quit := false } := by
  have h1 : starts_with "use " (to_lowercase line) = false :=
    starts_with_disjoint _ _ _ hg (by decide) (by decide)
  have h2 : starts_with "create database " (to_lowercase line) = false :=
    starts_with_disjoint _ _ _ hg (by decide) (by decide)
  unfold dispatch
  simp only [h1, h2, Bool.or_self, Bool.false_eq_true, if_false, hg, if_true, hp]

lemma dispatch_drop_database_eq (o : Oracle) (line : String) (st : Session)
    (hg : starts_with "drop database " (to_lowercase line) = true) :
    dispatch o line st =
      (match extract_db_name line with
      | some name =>
        { session := { database_name := "None", sql_pool := none },
          events :=
            (match st.sql_pool with
            | some _ => [Event.print Msg.closingConnection, Event.close,
                Event.print Msg.connectionClosed]
            | none => []) ++
            [Event.deleteFile name,
              Event.print (if o.deleteOk name then Msg.dropped name else Msg.dropError name)],
          quit := false }
      | none =>
        { session := st, events := [Event.print Msg.invalidDbName], quit := false }) := by
  have h1 : starts_with "use " (to_lowercase line) = false :=
    starts_with_disjoint _ _ _ hg (by decide) (by decide)
  have h2 : starts_with "create database " (to_lowercase line) = false :=
    starts_with_disjoint _ _ _ hg (by decide) (by decide)
  have h3 : starts_with "drop schema " (to_lowercase line) = false :=
    starts_with_disjoint _ _ _ hg (by decide) (by decide)
  have h4 : (to_lowercase line == "show tables;") = false := by
    cases hq : to_lowercase line == "show tables;"
    · rfl
    · have he : to_lowercase line = "show tables;" := eq_of_beq hq
      rw [he] at hg
      exact absurd hg (by decide)
  unfold dispatch
  simp only [h1, h2, h3, h4, Bool.or_self, Bool.false_eq_true, if_false, hg, if_true]

lemma dispatch_exit_eq (o : Oracle) (line : String) (st : Session)
    (hex : to_lowercase line = "exit") :
    dispatch o line st =
      (match st.sql_pool with
      | some _ =>
        { session := { st with sql_pool := none },
          events := [Event.print Msg.closingConnection, Event.close,
            Event.print Msg.connectionClosed],
          quit := true }
      | none => { session := st, events := [], quit := true }) := by
  have h1 : starts_with "use " (to_lowercase line) = false := by rw [hex]; decide
  have h2 : starts_with "create database " (to_lowercase line) = false := by rw [hex]; decide
  have h3 : starts_with "drop schema " (to_lowercase line) = false := by rw [hex]; decide
  have h4 : (to_lowercase line == "show tables;") = false := by rw [hex]; decide
  have h5 : starts_with "drop database " (to_lowercase line) = false := by rw [hex]; decide
  have h6 : (to_lowercase line == "help") = false := by rw [hex]; decide
  have h7 : (line == "?") = false := by
    cases hq : line == "?"
    · rfl
    · have he : line = "?" := eq_of_beq hq
      rw [he] at hex
      exact absurd hex (by decide)
  have h8 : (to_lowercase line == "exit") = true := by rw [hex]; decide
  unfold dispatch
  simp only [h1, h2, h3, h4, h5, h6, h7, h8, Bool.or_self, Bool.or_false,
    Bool.false_eq_true, if_false, if_true]

lemma dispatch_raw_eq (o : Oracle) (line : String) (st : Session)
    (hcmd : isCommand line = false) :
    dispatch o line st =
      (match st.sql_pool with
      | some _ =>
        { session := st,
          events := [Event.execSql line,
            Event.print (if o.execOk line then Msg.queryOk else Msg.queryError)],
          quit := false }
      | none =>
        { session := st, events := [Event.print Msg.noDatabaseSelected],
          quit := false }) := by
  unfold isCommand at hcmd
  rw [Bool.or_eq_false_iff] at hcmd
  obtain ⟨hcmd, h8⟩ := hcmd
  rw [Bool.or_eq_false_iff] at hcmd
  obtain ⟨hcmd, h7⟩ := hcmd
  rw [Bool.or_eq_false_iff] at hcmd
  obtain ⟨hcmd, h6⟩ := hcmd
  rw [Bool.or_eq_false_iff] at hcmd
  obtain ⟨hcmd, h5⟩ := hcmd
  rw [Bool.or_eq_false_iff] at hcmd
  obtain ⟨hcmd, h4⟩ := hcmd
  rw [Bool.or_eq_false_iff] at hcmd
  obtain ⟨hcmd, h3⟩ := hcmd
  rw [Bool.or_eq_false_iff] at hcmd
  obtain ⟨h1, h2⟩ := hcmd
  unfold dispatch
  simp only [h1, h2, h3, h4, h5, h6, h7, h8, Bool.or_self, Bool.or_false,
    Bool.false_eq_true, if_false]

/-- Claim C4 counterexample: after DROP SCHEMA the prompt name is reset to
None, yet dispatching the raw statement select 1 still forwards it to the
engine (the handle was never removed) and does not report that no database is
selected, refuting the claim for the post-DROP-SCHEMA state. -/
theorem raw_sql_unattached_rejected_cex :
    ((dispatch oT "DROP SCHEMA test;"
      { database_name := "test.db", sql_pool := some 7 }).session.database_name = "None") ∧
    (Event.execSql "select 1" ∈
      (dispatch oT "select 1"
        (dispatch oT "DROP SCHEMA test;"
          { database_name := "test.db", sql_pool := some 7 }).session).events) ∧
    (Event.print Msg.noDatabaseSelected ∉
      (dispatch oT "select 1"
        (dispatch oT "DROP SCHEMA test;"
          { database_name := "test.db", sql_pool := some 7 }).session).events) := by
  decide

/-- Claim C4 (amended): when the connection handle itself is absent
(sql_pool = none), dispatching any non-command line reports that no database
is selected, changes nothing, and emits no engine call; but DROP SCHEMA does
not clear the handle, so the post-DROP-SCHEMA state still forwards raw SQL. -/
theorem raw_sql_unattached_rejected (o : Oracle) (line : String) (st : Session)
    (hcmd : isCommand line = false) (hp : st.sql_pool = none) :
    dispatch o line st =
      { session := st, events := [Event.print Msg.noDatabaseSelected], quit := false } := by
  rw [dispatch_raw_eq o line st hcmd, hp]

/-- Claim C4 witness: the amended theorem applied to the line select 1 in a
detached session. -/
theorem raw_sql_unattached_rejected_witness :
    isCommand "select 1" = false ∧
    dispatch oT "select 1" { database_name := "None", sql_pool := none } =
      { session := { database_name := "None", sql_pool := none },
        events := [Event.print Msg.noDatabaseSelected], quit := false } :=
  ⟨by decide,
    raw_sql_unattached_rejected oT "select 1"
      { database_name := "None", sql_pool := none } (by decide) rfl⟩

/-- Claim C5 counterexample: dispatching USE b while a connection with
handle 3 is attached installs the new handle 4 without ever emitting a close
call for the old connection, refuting close-before-replace as stated. -/
theorem connection_close_discipline_cex :
    ((dispatch oT "USE b"
      { database_name := "a.db", sql_pool := some 3 }).session.sql_pool = some 4) ∧
    (Event.close ∉
      (dispatch oT "USE b" { database_name := "a.db", sql_pool := some 3 }).events) := by
  decide

/-- Claim C5 (amended): with a connection attached, DROP SCHEMA, EXIT and a
well-formed DROP DATABASE each close the connection before clearing or
dropping it (for DROP DATABASE the close precedes the file deletion); but the
USE and CREATE DATABASE branch never emits a close, replacing the old handle
without closing it. -/
theorem connection_close_discipline (o : Oracle) (line : String) (st : Session) (p : Nat)
    (hp : st.sql_pool = some p) :
    (starts_with "drop schema " (to_lowercase line) = true →
      dispatch o line st =
        { session := { database_name := "None", sql_pool := some p },
          events := [Event.print Msg.closingConnection, Event.close,
            Event.print Msg.connectionClosed],
          quit := false }) ∧
    (to_lowercase line = "exit" →
      dispatch o line st =
        { session := { database_name := st.database_name, sql_pool := none },
          events := [Event.print Msg.closingConnection, Event.close,
            Event.print Msg.connectionClosed],
          quit := true }) ∧
    (∀ name, starts_with "drop database " (to_lowercase line) = true →
      extract_db_name line = some name →
      dispatch o line st =
        { session := { database_name := "None", sql_pool := none },
          events := [Event.print Msg.closingConnection, Event.close,
            Event.print Msg.connectionClosed, Event.deleteFile name,
            Event.print (if o.deleteOk name then Msg.dropped name else Msg.dropError name)],
          quit := false }) ∧
    ((starts_with "use " (to_lowercase line) ||
      starts_with "create database " (to_lowercase line)) = true →
      Event.close ∉ (dispatch o line st).events) := by
  refine ⟨fun hg => dispatch_drop_schema_some o line st p hg hp, ?_, ?_, ?_⟩
  · intro hex
    rw [dispatch_exit_eq o line st hex, hp]
  · intro name hg hex
    rw [dispatch_drop_database_eq o line st hg, hex, hp]
    rfl
  · intro hg
    cases hex : extract_db_name line with
    | none =>
      rw [dispatch_use_create_invalid o line st hg hex]
      simp
    | some name =>
      cases hc : o.connect name with
      | none =>
        rw [dispatch_use_create_fail o line st name hg hex hc]
        split <;> simp
      | some q =>
        rw [dispatch_use_create_ok o line st name q hg hex hc]
        split <;> split <;> simp

/-- Claim C5 witness: the amended theorem applied to EXIT with handle 3
attached. -/
theorem connection_close_discipline_witness :
    to_lowercase "exit" = "exit" ∧
    dispatch oT "exit" { database_name := "a.db", sql_pool := some 3 } =
      { session := { database_name := "a.db", sql_pool := none },
        events := [Event.print Msg.closingConnection, Event.close,
          Event.print Msg.connectionClosed],
        quit := true } :=
  ⟨by decide,
    (connection_close_discipline oT "exit"
      { database_name := "a.db", sql_pool := some 3 } 3 rfl).2.1 (by decide)⟩

/-- Claim C6 counterexample: dispatching USE bar from a detached session with
a failing connection attempt leaves the handle cleared but installs bar.db as
the session name, so the name state does not reflect a detached session,
refuting the claim as stated. -/
theorem use_create_attachment_update_cex :
    ((dispatch oF "USE bar"
      { database_name := "None", sql_pool := none }).session.sql_pool = none) ∧
    ((dispatch oF "USE bar"
      { database_name := "None", sql_pool := none }).session.database_name = "bar.db") ∧
    ¬ ((dispatch oF "USE bar"
      { database_name := "None", sql_pool := none }).session.database_name = "None") := by
  decide

/-- Claim C6 (amended): for a well-formed USE or CREATE DATABASE line, a
successful open replaces the attachment with the new name and handle; a
failed open clears the handle and surfaces the connection error, but the
session name nevertheless remains set to the attempted database name. -/
theorem use_create_attachment_update (o : Oracle) (line : String) (st : Session)
    (name : String)
    (hg : (starts_with "use " (to_lowercase line) ||
      starts_with "create database " (to_lowercase line)) = true)
    (hex : extract_db_name line = some name) :
    (∀ p, o.connect name = some p →
      (dispatch o line st).session = { database_name := name, sql_pool := some p } ∧
      Event.print (Msg.connectError name) ∉ (dispatch o line st).events) ∧
    (o.connect name = none →
      (dispatch o line st).session = { database_name := name, sql_pool := none } ∧
      Event.print (Msg.connectError name) ∈ (dispatch o line st).events) := by
  constructor
  · intro p hc
    rw [dispatch_use_create_ok o line st name p hg hex hc]
    refine ⟨rfl, ?_⟩
    split <;> split <;> simp
  · intro hc
    rw [dispatch_use_create_fail o line st name hg hex hc]
    refine ⟨rfl, ?_⟩
    simp

/-- Claim C6 witness: the amended theorem applied to USE bar with a failing
connection oracle. -/
theorem use_create_attachment_update_witness :
    extract_db_name "USE bar" = some "bar.db" ∧
    (dispatch oF "USE bar" { database_name := "None", sql_pool := none }).session =
      { database_name := "bar.db", sql_pool := none } :=
  ⟨by decide,
    ((use_create_attachment_update oF "USE bar"
      { database_name := "None", sql_pool := none } "bar.db"
      (by decide) (by decide)).2 rfl).1⟩

/-- Claim C7 counterexample: DROP SCHEMA with handle 5 attached resets the
name to None but leaves sql_pool holding the (closed) handle, refuting the
removed-handle half of the claim. -/
theorem drop_schema_effects_cex :
    ((dispatch oT "DROP SCHEMA foo;"
      { database_name := "foo.db", sql_pool := some 5 }).session =
      { database_name := "None", sql_pool := some 5 }) ∧
    ¬ ((dispatch oT "DROP SCHEMA foo;"
      { database_name := "foo.db", sql_pool := some 5 }).session.sql_pool = none) := by
  decide

/-- Claim C7 (amended): DROP SCHEMA with a connection attached closes the
connection and resets the name to None without deleting any file, but the
handle stays installed in the session; with nothing attached it is a no-op. -/
theorem drop_schema_effects (o : Oracle) (line : String) (st : Session)
    (hg : starts_with "drop schema " (to_lowercase line) = true) :
    (∀ p, st.sql_pool = some p →
      dispatch o line st =
        { session := { database_name := "None", sql_pool := some p },
          events := [Event.print Msg.closingConnection, Event.close,
            Event.print Msg.connectionClosed],
          quit := false }) ∧
    (st.sql_pool = none →
      dispatch o line st = { session := st, events := [], quit := false }) :=
  ⟨fun p hp => dispatch_drop_schema_some o line st p hg hp,
    fun hp => dispatch_drop_schema_none o line st hg hp⟩

/-- Claim C7 witness: the amended theorem applied to DROP SCHEMA foo; with
handle 5 attached. -/
theorem drop_schema_effects_witness :
    starts_with "drop schema " (to_lowercase "DROP SCHEMA foo;") = true ∧
    dispatch oT "DROP SCHEMA foo;" { database_name := "foo.db", sql_pool := some 5 } =
      { session := { database_name := "None", sql_pool := some 5 },
        events := [Event.print Msg.closingConnection, Event.close,
          Event.print Msg.connectionClosed],
        quit := false } :=
  ⟨by decide,
    (drop_schema_effects oT "DROP SCHEMA foo;"
      { database_name := "foo.db", sql_pool := some 5 } (by decide)).1 5 rfl⟩

/-- Claim C8 counterexample: the bare line USE begins with the USE keyword
and lacks its argument, yet the dispatcher forwards it verbatim to the engine
instead of reporting it invalid, refuting the claim as stated. -/
theorem malformed_db_command_reported_cex :
    (Event.execSql "USE" ∈
      (dispatch oT "USE" { database_name := "a.db", sql_pool := some 1 }).events) ∧
    (Event.print Msg.invalidDbName ∉
      (dispatch oT "USE" { database_name := "a.db", sql_pool := some 1 }).events) := by
  decide

/-- Claim C8 (amended): a line matching one of the dispatch prefixes (use,
create database or drop database followed by a space, case-insensitively)
from which extract_db_name cannot extract a name is reported as an invalid
database name and nothing else happens: no state change, no engine call.  A
bare keyword without the trailing space instead falls through to raw SQL
forwarding. -/
theorem malformed_db_command_reported (o : Oracle) (line : String) (st : Session)
    (h : (starts_with "use " (to_lowercase line) ||
      starts_with "create database " (to_lowercase line)) = true ∨
      starts_with "drop database " (to_lowercase line) = true)
    (hex : extract_db_name line = none) :
    dispatch o line st =
      { session := st, events := [Event.print Msg.invalidDbName], quit := false } := by
  rcases h with hg | hg
  · exact dispatch_use_create_invalid o line st hg hex
  · rw [dispatch_drop_database_eq o line st hg, hex]

/-- Claim C8 witness: the amended theorem applied to USE a b (two arguments)
with a connection attached. -/
theorem malformed_db_command_reported_witness :
    extract_db_name "USE a b" = none ∧
    dispatch oT "USE a b" { database_name := "a.db", sql_pool := some 1 } =
      { session := { database_name := "a.db", sql_pool := some 1 },
        events := [Event.print Msg.invalidDbName], quit := false } :=
  ⟨by decide,
    malformed_db_command_reported oT "USE a b"
      { database_name := "a.db", sql_pool := some 1 }
      (Or.inl (by decide)) (by decide)⟩
